import Mathlib

/-!
# kube-container-exec: pod selection and remote exec dispatch

A shallow embedding of `main.go`.  The cluster client library, the flag
package, the operating system and glog are outside the program; every call
into them that can fail or return data is an explicit input (a field of
`Clientset`, `ConfigLoader`, `Runtime` or `World`), and every effect the
program has on them (log entries, REST request builder calls, the stream that
is opened, how the process ends) is recorded in the value a function returns.
-/

namespace KubeContainerExec

/-! ## Data model -/

/-- Go `error` values, split by the one distinction `main` makes: whether the
dynamic type implements `exec.ExitError` (and then carries `ExitStatus()`).
`msg` is what `Error()` returns. -/
inductive GoError where
  | ExitError (status : Int) (msg : String)
  | other (msg : String)
  deriving DecidableEq, Repr

/-- The text of an error, `err.Error()`. -/
def GoError.Error : GoError → String
  | .ExitError _ msg => msg
  | .other msg => msg

/-- `apiv1.PodPhase` is a string type. -/
abbrev PodPhase := String

def PodPending : PodPhase := "Pending"
def PodRunning : PodPhase := "Running"
def PodSucceeded : PodPhase := "Succeeded"
def PodFailed : PodPhase := "Failed"
def PodUnknown : PodPhase := "Unknown"

/-- `apiv1.PodStatus`, the field the program reads. -/
structure PodStatus where
  Phase : PodPhase
  deriving DecidableEq, Repr

/-- `apiv1.Pod`, restricted to the fields the program reads (`Name`,
`Namespace`, `Status.Phase`) and the container names of its spec. -/
structure Pod where
  Name : String
  Namespace : String
  Containers : List String
  Status : PodStatus
  deriving DecidableEq, Repr

/-- The zero value of `apiv1.Pod`, what `var pod apiv1.Pod` declares. -/
def Pod.zero : Pod :=
  { Name := "", Namespace := "", Containers := [], Status := { Phase := "" } }

/-- `rest.Config`: a handle the program only passes on. -/
structure RestConfig where
  host : String
  deriving DecidableEq, Repr

/-- `kubernetes.Clientset`, as far as the program uses it: the pod list call
`CoreV1().Pods(namespace).List(ListOptions{LabelSelector: selector})`. -/
structure Clientset where
  listPods : String → String → Except GoError (List Pod)

/-- The `KubeClient` struct of `main.go`. -/
structure KubeClient where
  namespace_ : String
  clientset : Clientset
  restconfig : RestConfig

/-- The three fallible steps of `KubeClientFromConfig`:
`kubeconfig.ClientConfig()`, `kubernetes.NewForConfig` and
`kubeconfig.Namespace()`. -/
structure ConfigLoader where
  ClientConfig : Except GoError RestConfig
  NewForConfig : RestConfig → Except GoError Clientset
  Namespace : Except GoError String

/-! ## The REST request builder

`rest.Request` of the client library: the path parts, the parameters in the
order they were added, and the error state.  A setter called on a request
whose error is set leaves it as it is; a setter that rejects its argument sets
the error and stores nothing.  `URL()` reads the path parts and parameters
and ignores the error. -/

/-- `strings.HasPrefix` on character lists. -/
def startsWithChars : List Char → List Char → Bool
  | _, [] => true
  | [], _ :: _ => false
  | c :: cs, d :: ds => c == d && startsWithChars cs ds

/-- `strings.Contains` on character lists. -/
def containsChars : List Char → List Char → Bool
  | [], sub => sub.isEmpty
  | c :: cs, sub => startsWithChars (c :: cs) sub || containsChars cs sub

/-- `strings.Contains(s, substr)`. -/
def strings.Contains (s substr : String) : Bool := containsChars s.data substr.data

def NameMayNotBe : List String := [".", ".."]

def NameMayNotContain : List String := ["/", "%"]

/-- `IsValidPathSegmentName(name)`: the list of complaints, empty when the
name can be one segment of a path. -/
def IsValidPathSegmentName (name : String) : List String :=
  match NameMayNotBe.find? (fun illegalName => name = illegalName) with
  | some illegalName => ["may not be '" ++ illegalName ++ "'"]
  | none =>
    (NameMayNotContain.filter (fun illegalContent => strings.Contains name illegalContent)).map
      (fun illegalContent => "may not contain '" ++ illegalContent ++ "'")

/-- The errors the setters of `rest.Request` store in `r.err`, by cause. -/
inductive RequestError where
  | namespaceAlreadySet (old new : String)
  | invalidNamespace (ns : String) (msgs : List String)
  | resourceAlreadySet (old new : String)
  | invalidResource (resource : String) (msgs : List String)
  | resourceNameEmpty
  | resourceNameAlreadySet (old new : String)
  | invalidResourceName (name : String) (msgs : List String)
  | subresourceAlreadySet (old new : String)
  | invalidSubresource (s : String) (msgs : List String)
  deriving DecidableEq, Repr

structure Request where
  verb : String
  err : Option RequestError
  namespaceSet : Bool
  namespace_ : String
  resource : String
  resourceName : String
  subresource : String
  params : List (String × String)
  deriving DecidableEq, Repr

/-- `restClient.Post()`. -/
def Request.Post : Request :=
  { verb := "POST", err := none, namespaceSet := false, namespace_ := "", resource := "",
    resourceName := "", subresource := "", params := [] }

/-- `r.Namespace(namespace)`. -/
def Request.Namespace (r : Request) (ns : String) : Request :=
  if r.err ≠ none then r
  else if r.namespaceSet then
    { r with err := some (RequestError.namespaceAlreadySet r.namespace_ ns) }
  else if IsValidPathSegmentName ns ≠ [] then
    { r with err := some (RequestError.invalidNamespace ns (IsValidPathSegmentName ns)) }
  else { r with namespaceSet := true, namespace_ := ns }

/-- `r.Resource(resource)`. -/
def Request.Resource (r : Request) (s : String) : Request :=
  if r.err ≠ none then r
  else if r.resource ≠ "" then
    { r with err := some (RequestError.resourceAlreadySet r.resource s) }
  else if IsValidPathSegmentName s ≠ [] then
    { r with err := some (RequestError.invalidResource s (IsValidPathSegmentName s)) }
  else { r with resource := s }

/-- `r.Name(resourceName)`. -/
def Request.Name (r : Request) (s : String) : Request :=
  if r.err ≠ none then r
  else if s = "" then { r with err := some RequestError.resourceNameEmpty }
  else if r.resourceName ≠ "" then
    { r with err := some (RequestError.resourceNameAlreadySet r.resourceName s) }
  else if IsValidPathSegmentName s ≠ [] then
    { r with err := some (RequestError.invalidResourceName s (IsValidPathSegmentName s)) }
  else { r with resourceName := s }

/-- `r.SubResource(s)`, called with one segment. -/
def Request.SubResource (r : Request) (s : String) : Request :=
  if r.err ≠ none then r
  else if r.subresource ≠ "" then
    { r with err := some (RequestError.subresourceAlreadySet r.subresource s) }
  else if IsValidPathSegmentName s ≠ [] then
    { r with err := some (RequestError.invalidSubresource s (IsValidPathSegmentName s)) }
  else { r with subresource := s }

/-- `r.Param(name, value)`: on a request without error, one more value for
`name`, after those already there. -/
def Request.Param (r : Request) (name value : String) : Request :=
  if r.err ≠ none then r
  else { r with params := r.params ++ [(name, value)] }

/-- The values added for parameter `name`, in the order they were added. -/
def Request.paramValues (r : Request) (name : String) : List String :=
  (r.params.filter (fun kv => kv.1 = name)).map (fun kv => kv.2)

/-- The standard files of the process. -/
inductive StdFile where
  | Stdin
  | Stdout
  | Stderr
  deriving DecidableEq, Repr

/-- `remotecommand.StreamOptions`. -/
structure StreamOptions where
  SupportedProtocols : List String
  Stdin : Option StdFile
  Stdout : Option StdFile
  Stderr : Option StdFile
  Tty : Bool
  TerminalSizeQueue : Option Unit
  deriving DecidableEq, Repr

/-- What `remotecommand.NewExecutor(config, method, req.URL())` was built
from; `url` is the request whose `URL()` was taken. -/
structure Executor where
  config : RestConfig
  method : String
  url : Request
  deriving DecidableEq, Repr

/-- The calls `ExecInPod` makes outside the program: whether
`remotecommand.NewExecutor` fails, whether the two `Sync` calls fail, what
`executor.Stream` returns, and the library constant
`remotecommandconsts.SupportedStreamingProtocols`. -/
structure Runtime where
  NewExecutor : RestConfig → String → Request → Option GoError
  StdoutSync : Option GoError
  StderrSync : Option GoError
  Stream : Executor → StreamOptions → Option GoError
  SupportedStreamingProtocols : List String

/-- What one call of `ExecInPod` did: the request it built, the options of the
stream it opened (`none` when it returned before `executor.Stream`), and the
error it returned. -/
structure ExecTrace where
  req : Request
  stream : Option StreamOptions
  err : Option GoError
  deriving DecidableEq, Repr

/-! ## KubeClientFromConfig, GetPodByFilter, ExecInPod -/

/-- `KubeClientFromConfig`: `(nil, err)` at the first failing step, else the
client. -/
def KubeClientFromConfig (l : ConfigLoader) : Except GoError KubeClient :=
  match l.ClientConfig with
  | .error err => .error err
  | .ok restconfig =>
    match l.NewForConfig restconfig with
    | .error err => .error err
    | .ok clientset =>
      match l.Namespace with
      | .error err => .error err
      | .ok ns => .ok { namespace_ := ns, clientset := clientset, restconfig := restconfig }

/-- The loop of `GetPodByFilter`: `pod` keeps its value until the first item
whose phase is `PodRunning`, which is copied into it and ends the loop. -/
def GetPodByFilter.loop : List Pod → Pod → Pod
  | [], pod => pod
  | p :: rest, pod => if p.Status.Phase = PodRunning then p else GetPodByFilter.loop rest pod

/-- `(kc *KubeClient) GetPodByFilter(filter) (*apiv1.Pod, error)`.  The first
component is the pointer (`none` is `nil`), the second the error. -/
def GetPodByFilter (kc : KubeClient) (filter : String) : Option Pod × Option GoError :=
  match kc.clientset.listPods kc.namespace_ filter with
  | .error err => (none, some err)
  | .ok items => (some (GetPodByFilter.loop items Pod.zero), none)

/-- The request `ExecInPod` builds: the chained builder calls, then one
`Param("command", c)` per command in the order of the slice. -/
def ExecInPod.request (pod : Pod) (container : String) (commands : List String) : Request :=
  commands.foldl (fun req command => req.Param "command" command)
    ((((((Request.Post.Namespace pod.Namespace).Resource "pods").Name pod.Name).SubResource
      "exec").Param "container" container).Param "stdout" "true" |>.Param "stderr" "true")

/-- The `StreamOptions` literal of `ExecInPod`. -/
def ExecInPod.streamOptions (rt : Runtime) : StreamOptions :=
  { SupportedProtocols := rt.SupportedStreamingProtocols
    Stdin := none
    Stdout := some StdFile.Stdout
    Stderr := some StdFile.Stderr
    Tty := false
    TerminalSizeQueue := none }

/-- `(kc *KubeClient) ExecInPod(pod, container, commands) error`. -/
def ExecInPod (kc : KubeClient) (rt : Runtime) (pod : Pod) (container : String)
    (commands : List String) : ExecTrace :=
  let req := ExecInPod.request pod container commands
  match rt.NewExecutor kc.restconfig "POST" req with
  | some err => { req := req, stream := none, err := some err }
  | none =>
    let executor : Executor := { config := kc.restconfig, method := "POST", url := req }
    match rt.StdoutSync with
    | some err => { req := req, stream := none, err := some err }
    | none =>
      match rt.StderrSync with
      | some err => { req := req, stream := none, err := some err }
      | none =>
        let opts := ExecInPod.streamOptions rt
        { req := req, stream := some opts, err := rt.Stream executor opts }

/-! ## main -/

/-- The glog functions `main` calls. -/
inductive GlogFn where
  | Infof
  | Error
  | Fatal
  | Exit
  deriving DecidableEq, Repr

/-- One glog call that wrote an entry. -/
structure LogEntry where
  fn : GlogFn
  msg : String
  deriving DecidableEq, Repr

/-- The calls of `main` into the three functions of the program. -/
inductive Call where
  | KubeClientFromConfig
  | GetPodByFilter (filter : String)
  | ExecInPod (pod : Pod) (container : String) (commands : List String)
  deriving DecidableEq, Repr

/-- How `main` ends: it returns, `os.Exit(code)`, `glog.Fatal` or
`glog.Exit`. -/
inductive Outcome where
  | returned
  | osExit (code : Int)
  | glogFatal
  | glogExit
  deriving DecidableEq, Repr

/-- What one run of `main` did. `exec` is the trace of its `ExecInPod` call,
`none` when it made none. -/
structure Run where
  calls : List Call
  log : List LogEntry
  exec : Option ExecTrace
  outcome : Outcome
  deriving DecidableEq, Repr

/-- Everything `main` reads from outside: the environment variables, the flag
values given on the command line (`none` when a flag is not given), the
positional arguments `flag.Args()`, the glog verbosity, the results of
`flag.Set` and `os.Setenv`, the configuration loader found under a given
`KUBECONFIG` value, and the runtime of `ExecInPod`.  The model starts where
`flag.Parse()` has returned. -/
structure World where
  envFILTER : String
  envCONTAINER : String
  envKUBECONFIG : String
  flagFilter : Option String
  flagContainer : Option String
  flagKubeconfig : Option String
  args : List String
  verbosity : Nat
  flagSetErr : Option GoError
  setenvErr : String → Option GoError
  loader : String → ConfigLoader
  rt : Runtime

/-- The value of `filter` after `flag.Parse()`: the flag when given, else the
environment variable. -/
def World.filter (w : World) : String := w.flagFilter.getD w.envFILTER

/-- The value of `container` after `flag.Parse()`. -/
def World.container (w : World) : String := w.flagContainer.getD w.envCONTAINER

/-- The value of `kubeconfig` after `flag.Parse()`. -/
def World.kubeconfig (w : World) : String := w.flagKubeconfig.getD w.envKUBECONFIG

/-- The entries `glog.V(level).Infof` writes: one when the verbosity reaches
`level`, none otherwise. -/
def glogV (verbosity level : Nat) (msg : String) : List LogEntry :=
  if level ≤ verbosity then [{ fn := GlogFn.Infof, msg := msg }] else []

/-- The `%v` rendering of a string slice. -/
def fmtSlice (xs : List String) : String := "[" ++ " ".intercalate xs ++ "]"

/-- The first verbose message of `main`. -/
def executingMsg (commands : List String) (container filter : String) : String :=
  "Executing " ++ fmtSlice commands ++ " in container '" ++ container ++ "' matching pod '"
    ++ filter ++ "'"

/-- The function `main`, from the first statement after the flags are
registered and parsed to the end. -/
def main (w : World) : Run :=
  match w.flagSetErr with
  | some err =>
    { calls := [], log := [{ fn := GlogFn.Fatal, msg := err.Error }], exec := none,
      outcome := Outcome.glogFatal }
  | none =>
  match w.setenvErr w.kubeconfig with
  | some err =>
    { calls := [], log := [{ fn := GlogFn.Fatal, msg := err.Error }], exec := none,
      outcome := Outcome.glogFatal }
  | none =>
  let commands := w.args
  if w.filter = "" then
    { calls := [], log := [{ fn := GlogFn.Exit, msg := "no pod-\"filter\" set" }], exec := none,
      outcome := Outcome.glogExit }
  else if w.container = "" then
    { calls := [], log := [{ fn := GlogFn.Exit, msg := "no \"container\" set" }], exec := none,
      outcome := Outcome.glogExit }
  else
  let log1 := glogV w.verbosity 4 (executingMsg commands w.container w.filter)
  match KubeClientFromConfig (w.loader w.kubeconfig) with
  | .error err =>
    { calls := [Call.KubeClientFromConfig],
      log := log1 ++ [{ fn := GlogFn.Fatal, msg := err.Error }], exec := none,
      outcome := Outcome.glogFatal }
  | .ok client =>
  let calls2 := [Call.KubeClientFromConfig, Call.GetPodByFilter w.filter]
  match GetPodByFilter client w.filter with
  | (_, some err) =>
    { calls := calls2, log := log1 ++ [{ fn := GlogFn.Fatal, msg := err.Error }], exec := none,
      outcome := Outcome.glogFatal }
  | (none, none) =>
    { calls := calls2, log := log1 ++ [{ fn := GlogFn.Fatal, msg := "No (running) pod found" }],
      exec := none, outcome := Outcome.glogFatal }
  | (some pod, none) =>
  let log2 := log1 ++ glogV w.verbosity 4 ("Using pod " ++ pod.Name)
  let calls3 := calls2 ++ [Call.ExecInPod pod w.container commands]
  let t := ExecInPod client w.rt pod w.container commands
  match t.err with
  | some (GoError.ExitError status msg) =>
    { calls := calls3, log := log2 ++ [{ fn := GlogFn.Error, msg := msg }], exec := some t,
      outcome := Outcome.osExit status }
  | some (GoError.other msg) =>
    { calls := calls3, log := log2 ++ [{ fn := GlogFn.Fatal, msg := msg }], exec := some t,
      outcome := Outcome.glogFatal }
  | none => { calls := calls3, log := log2, exec := some t, outcome := Outcome.returned }

/-- A call of `ExecInPod`, whatever its arguments. -/
def Call.isExec : Call → Bool
  | .ExecInPod _ _ _ => true
  | _ => false

/-- A call that reaches for the cluster: all three functions do. -/
def Call.isCluster : Call → Bool
  | .KubeClientFromConfig => true
  | .GetPodByFilter _ => true
  | .ExecInPod _ _ _ => true

/-! ## Sample inputs -/

def samplePods : List Pod :=
  [ { Name := "web-0", Namespace := "shop", Containers := ["app"], Status := { Phase := PodPending } },
    { Name := "web-1", Namespace := "shop", Containers := ["app"], Status := { Phase := PodRunning } },
    { Name := "web-2", Namespace := "shop", Containers := ["app"], Status := { Phase := PodRunning } } ]

def sampleIdlePods : List Pod :=
  [ { Name := "job-0", Namespace := "shop", Containers := ["app"], Status := { Phase := PodSucceeded } },
    { Name := "job-1", Namespace := "shop", Containers := ["app"], Status := { Phase := PodFailed } } ]

/-- A client whose list call returns `r` for every namespace and selector. -/
def sampleClient (r : Except GoError (List Pod)) : KubeClient :=
  { namespace_ := "shop", clientset := { listPods := fun _ _ => r },
    restconfig := { host := "https://cluster.local" } }

/-- A runtime in which everything before the stream succeeds and the stream
returns `streamErr`. -/
def sampleRuntime (streamErr : Option GoError) : Runtime :=
  { NewExecutor := fun _ _ _ => none, StdoutSync := none, StderrSync := none,
    Stream := fun _ _ => streamErr, SupportedStreamingProtocols := ["v4.channel.k8s.io"] }

/-- An invocation with the given flags and positional arguments against a
cluster whose list call returns `r` and whose stream returns `streamErr`. -/
def sampleWorld (filter container : String) (args : List String)
    (r : Except GoError (List Pod)) (streamErr : Option GoError) : World :=
  { envFILTER := "", envCONTAINER := "", envKUBECONFIG := "",
    flagFilter := some filter, flagContainer := some container, flagKubeconfig := none,
    args := args, verbosity := 0, flagSetErr := none, setenvErr := fun _ => none,
    loader := fun _ =>
      { ClientConfig := .ok { host := "https://cluster.local" },
        NewForConfig := fun _ => .ok { listPods := fun _ _ => r },
        Namespace := .ok "shop" },
    rt := sampleRuntime streamErr }

/-- The first Running pod of `samplePods`. -/
def sampleRunningPod : Pod :=
  { Name := "web-1", Namespace := "shop", Containers := ["app"], Status := { Phase := PodRunning } }

/-- A pod whose name is not a path segment. -/
def sampleDotPod : Pod := { sampleRunningPod with Name := ".." }

/-- A pod whose namespace is not a path segment. -/
def sampleSlashPod : Pod := { sampleRunningPod with Namespace := "shop/eu" }

/-- The error of a remote command that ended with status 7. -/
def sampleExit7 : GoError := GoError.ExitError 7 "command terminated with exit code 7"

/-! ## Selection -/

theorem loop_none_running (items : List Pod) (pod : Pod)
    (h : ∀ p ∈ items, p.Status.Phase ≠ PodRunning) : GetPodByFilter.loop items pod = pod := by
  induction items with
  | nil => rfl
  | cons p rest ih =>
    have hp : p.Status.Phase ≠ PodRunning := h p (List.mem_cons_self _ _)
    have hrest : ∀ q ∈ rest, q.Status.Phase ≠ PodRunning :=
      fun q hq => h q (List.mem_cons_of_mem _ hq)
    simp [GetPodByFilter.loop, hp, ih hrest]

theorem loop_first_running (items : List Pod) (pod : Pod)
    (h : ∃ p ∈ items, p.Status.Phase = PodRunning) :
    ∃ i : Nat, items[i]? = some (GetPodByFilter.loop items pod) ∧
      (GetPodByFilter.loop items pod).Status.Phase = PodRunning ∧
      ∀ j : Nat, j < i → ∀ q : Pod, items[j]? = some q → q.Status.Phase ≠ PodRunning := by
  induction items with
  | nil => obtain ⟨p, hp, _⟩ := h; cases hp
  | cons p rest ih =>
    by_cases hp : p.Status.Phase = PodRunning
    · refine ⟨0, ?_, ?_, ?_⟩
      · simp [GetPodByFilter.loop, hp]
      · simp [GetPodByFilter.loop, hp]
      · intro j hj; omega
    · have hrest : ∃ q ∈ rest, q.Status.Phase = PodRunning := by
        obtain ⟨q, hq, hqr⟩ := h
        rcases List.mem_cons.mp hq with rfl | hq
        · exact absurd hqr hp
        · exact ⟨q, hq, hqr⟩
      obtain ⟨i, hi, hrun, hmin⟩ := ih hrest
      refine ⟨i + 1, ?_, ?_, ?_⟩
      · simpa [GetPodByFilter.loop, hp] using hi
      · simpa [GetPodByFilter.loop, hp] using hrun
      · intro j hj q hq
        cases j with
        | zero =>
          simp at hq
          subst hq
          exact hp
        | succ k =>
          simp at hq
          exact hmin k (by omega) q hq

/-- C1: when the list call returns a list with at least one Running pod,
GetPodByFilter returns no error and the list element at the smallest index
whose phase is Running; its phase is none of Pending, Succeeded, Failed,
Unknown; and any other client and filter whose list call returns the same list
get the same result. -/
theorem GetPodByFilter_first_running (kc : KubeClient) (filter : String) (items : List Pod)
    (hlist : kc.clientset.listPods kc.namespace_ filter = .ok items)
    (hrun : ∃ p ∈ items, p.Status.Phase = PodRunning) :
    ∃ (i : Nat) (p : Pod), items[i]? = some p ∧
      GetPodByFilter kc filter = (some p, none) ∧
      p.Status.Phase = PodRunning ∧
      (∀ j : Nat, j < i → ∀ q : Pod, items[j]? = some q → q.Status.Phase ≠ PodRunning) ∧
      p.Status.Phase ∉ [PodPending, PodSucceeded, PodFailed, PodUnknown] ∧
      ∀ (kc2 : KubeClient) (filter2 : String),
        kc2.clientset.listPods kc2.namespace_ filter2 = .ok items →
        GetPodByFilter kc2 filter2 = GetPodByFilter kc filter := by
  obtain ⟨i, hi, hph, hmin⟩ := loop_first_running items Pod.zero hrun
  refine ⟨i, GetPodByFilter.loop items Pod.zero, hi, ?_, hph, hmin, ?_, ?_⟩
  · simp [GetPodByFilter, hlist]
  · rw [hph]; decide
  · intro kc2 filter2 h2
    simp [GetPodByFilter, hlist, h2]

theorem GetPodByFilter_first_running_witness :
    ∃ (i : Nat) (p : Pod), samplePods[i]? = some p ∧
      GetPodByFilter (sampleClient (.ok samplePods)) "app=web" = (some p, none) ∧
      p.Status.Phase = PodRunning ∧
      (∀ j : Nat, j < i → ∀ q : Pod, samplePods[j]? = some q → q.Status.Phase ≠ PodRunning) ∧
      p.Status.Phase ∉ [PodPending, PodSucceeded, PodFailed, PodUnknown] ∧
      ∀ (kc2 : KubeClient) (filter2 : String),
        kc2.clientset.listPods kc2.namespace_ filter2 = .ok samplePods →
        GetPodByFilter kc2 filter2 = GetPodByFilter (sampleClient (.ok samplePods)) "app=web" :=
  GetPodByFilter_first_running (sampleClient (.ok samplePods)) "app=web" samplePods rfl
    ⟨_, List.mem_cons_of_mem _ (List.mem_cons_self _ _), rfl⟩

/-- C2: when the list call succeeds and no pod of the list is Running (the
empty list included), GetPodByFilter returns a nil error and a pointer to the
zero-valued pod, whose name and namespace are empty. -/
theorem GetPodByFilter_none_running (kc : KubeClient) (filter : String) (items : List Pod)
    (hlist : kc.clientset.listPods kc.namespace_ filter = .ok items)
    (hnone : ∀ p ∈ items, p.Status.Phase ≠ PodRunning) :
    GetPodByFilter kc filter = (some Pod.zero, none) ∧
      (GetPodByFilter kc filter).2 = none ∧
      Pod.zero.Name = "" ∧ Pod.zero.Namespace = "" := by
  have h : GetPodByFilter kc filter = (some Pod.zero, none) := by
    simp [GetPodByFilter, hlist, loop_none_running items Pod.zero hnone]
  exact ⟨h, by rw [h], rfl, rfl⟩

theorem GetPodByFilter_none_running_witness :
    GetPodByFilter (sampleClient (.ok sampleIdlePods)) "app=job" = (some Pod.zero, none) ∧
      (GetPodByFilter (sampleClient (.ok sampleIdlePods)) "app=job").2 = none ∧
      Pod.zero.Name = "" ∧ Pod.zero.Namespace = "" :=
  GetPodByFilter_none_running (sampleClient (.ok sampleIdlePods)) "app=job" sampleIdlePods rfl
    (by decide)

/-! ## The exec request -/

theorem foldl_Param (name : String) (commands : List String) (r : Request)
    (hr : r.err = none) :
    commands.foldl (fun req command => req.Param name command) r =
      { r with params := r.params ++ commands.map (fun c => (name, c)) } := by
  induction commands generalizing r with
  | nil => simp
  | cons c cs ih =>
    have hstep : r.Param name c = { r with params := r.params ++ [(name, c)] } := by
      simp [Request.Param, hr]
    rw [List.foldl_cons, hstep, ih { r with params := r.params ++ [(name, c)] } hr]
    simp

theorem foldl_Param_err (name : String) (commands : List String) (r : Request)
    (hr : r.err ≠ none) :
    commands.foldl (fun req command => req.Param name command) r = r := by
  induction commands with
  | nil => rfl
  | cons c cs ih =>
    have hstep : r.Param name c = r := by simp [Request.Param, hr]
    rw [List.foldl_cons, hstep, ih]

theorem ExecInPod_req (kc : KubeClient) (rt : Runtime) (pod : Pod) (container : String)
    (commands : List String) :
    (ExecInPod kc rt pod container commands).req = ExecInPod.request pod container commands := by
  cases h1 : rt.NewExecutor kc.restconfig "POST" (ExecInPod.request pod container commands)
    <;> cases h2 : rt.StdoutSync <;> cases h3 : rt.StderrSync <;> simp [ExecInPod, h1, h2, h3]

theorem ExecInPod_stream (kc : KubeClient) (rt : Runtime) (pod : Pod) (container : String)
    (commands : List String) :
    (ExecInPod kc rt pod container commands).stream =
      (if rt.NewExecutor kc.restconfig "POST" (ExecInPod.request pod container commands) = none
          ∧ rt.StdoutSync = none ∧ rt.StderrSync = none
        then some (ExecInPod.streamOptions rt) else none) := by
  cases h1 : rt.NewExecutor kc.restconfig "POST" (ExecInPod.request pod container commands)
    <;> cases h2 : rt.StdoutSync <;> cases h3 : rt.StderrSync <;> simp [ExecInPod, h1, h2, h3]

/-- The request built for a pod the builder accepts: every setter stores its
argument and every parameter is added. -/
theorem request_accepted (pod : Pod) (container : String) (commands : List String)
    (hname : pod.Name ≠ "") (hvalid : IsValidPathSegmentName pod.Name = [])
    (hns : IsValidPathSegmentName pod.Namespace = []) :
    ExecInPod.request pod container commands =
      { verb := "POST", err := none, namespaceSet := true, namespace_ := pod.Namespace,
        resource := "pods", resourceName := pod.Name, subresource := "exec",
        params := [("container", container), ("stdout", "true"), ("stderr", "true")] ++
          commands.map (fun c => ("command", c)) } := by
  have hpods : IsValidPathSegmentName "pods" = [] := by decide
  have hexec : IsValidPathSegmentName "exec" = [] := by decide
  rw [ExecInPod.request, foldl_Param]
  · simp [Request.Param, Request.Post, Request.Namespace, Request.Resource, Request.Name,
      Request.SubResource, hname, hvalid, hns, hpods, hexec]
  · simp [Request.Param, Request.Post, Request.Namespace, Request.Resource, Request.Name,
      Request.SubResource, hname, hvalid, hns, hpods, hexec]

/-- The request built for a pod with an empty name: `Name` sets the error, so
neither the sub-resource nor any parameter is stored. -/
theorem request_empty_name (pod : Pod) (container : String) (commands : List String)
    (hname : pod.Name = "") (hns : IsValidPathSegmentName pod.Namespace = []) :
    ExecInPod.request pod container commands =
      { verb := "POST", err := some RequestError.resourceNameEmpty, namespaceSet := true,
        namespace_ := pod.Namespace, resource := "pods", resourceName := "", subresource := "",
        params := [] } := by
  have hpods : IsValidPathSegmentName "pods" = [] := by decide
  rw [ExecInPod.request, foldl_Param_err]
  · simp [Request.Param, Request.Post, Request.Namespace, Request.Resource, Request.Name,
      Request.SubResource, hname, hns, hpods]
  · simp [Request.Param, Request.Post, Request.Namespace, Request.Resource, Request.Name,
      Request.SubResource, hname, hns, hpods]

theorem filter_command_map (commands : List String) :
    ((commands.map (fun c => ("command", c))).filter (fun kv => kv.1 = "command")).map
      (fun kv => kv.2) = commands := by
  induction commands with
  | nil => rfl
  | cons c cs ih => simp [ih]

theorem Namespace_params (r : Request) (ns : String) : (r.Namespace ns).params = r.params := by
  unfold Request.Namespace
  split
  · rfl
  · split
    · rfl
    · split <;> rfl

theorem Resource_params (r : Request) (x : String) : (r.Resource x).params = r.params := by
  unfold Request.Resource
  split
  · rfl
  · split
    · rfl
    · split <;> rfl

theorem Name_params (r : Request) (x : String) : (r.Name x).params = r.params := by
  unfold Request.Name
  split
  · rfl
  · split
    · rfl
    · split
      · rfl
      · split <;> rfl

theorem SubResource_params (r : Request) (x : String) :
    (r.SubResource x).params = r.params := by
  unfold Request.SubResource
  split
  · rfl
  · split
    · rfl
    · split <;> rfl

theorem Param_other (r : Request) (name value : String) (hname : name ≠ "command") :
    (r.Param name value).paramValues "command" = r.paramValues "command" := by
  unfold Request.Param
  split
  · rfl
  · simp [Request.paramValues, List.filter_append, hname]

/-- Without command tokens the request holds no command value, whatever the
pod: the chained setters add none. -/
theorem request_no_commands (pod : Pod) (container : String) :
    (ExecInPod.request pod container []).paramValues "command" = [] := by
  rw [ExecInPod.request, List.foldl_nil, Param_other _ _ _ (by decide),
    Param_other _ _ _ (by decide), Param_other _ _ _ (by decide), Request.paramValues,
    SubResource_params, Name_params, Resource_params, Namespace_params]
  rfl

/-- C5, as stated, fails: for the zero-valued pod, which main passes to
ExecInPod when the list holds no Running pod, the builder rejects the empty
name and the request built for the tokens "echo" and "a;b" carries no command
value at all; the same happens for a pod named ".." and for a pod whose
namespace contains a slash. -/
theorem ExecInPod_zero_pod_drops_commands :
    GetPodByFilter (sampleClient (.ok [])) "app=web" = (some Pod.zero, none) ∧
      (main (sampleWorld "app=web" "app" ["echo", "a;b"] (.ok []) none)).calls =
        [Call.KubeClientFromConfig, Call.GetPodByFilter "app=web",
          Call.ExecInPod Pod.zero "app" ["echo", "a;b"]] ∧
      (ExecInPod (sampleClient (.ok [])) (sampleRuntime none) Pod.zero "app"
        ["echo", "a;b"]).req.paramValues "command" = [] ∧
      (ExecInPod (sampleClient (.ok [])) (sampleRuntime none) Pod.zero "app"
        ["echo", "a;b"]).req.paramValues "command" ≠ ["echo", "a;b"] ∧
      (ExecInPod (sampleClient (.ok [])) (sampleRuntime none) sampleDotPod "app"
        ["echo", "a;b"]).req.paramValues "command" = [] ∧
      (ExecInPod (sampleClient (.ok [])) (sampleRuntime none) sampleSlashPod "app"
        ["echo", "a;b"]).req.paramValues "command" = [] := by
  refine ⟨rfl, rfl, ?_, ?_, ?_, ?_⟩
  · rw [ExecInPod_req, request_empty_name Pod.zero "app" _ rfl (by decide)]
    rfl
  · rw [ExecInPod_req, request_empty_name Pod.zero "app" _ rfl (by decide)]
    simp [Request.paramValues]
  · rw [ExecInPod_req]
    decide
  · rw [ExecInPod_req]
    decide

/-- C5, amended: for every pod whose name is not empty and whose name and
namespace are valid path segments, and every command-token list, the values
of the "command" parameters of the request ExecInPod builds, in the order
they were added, are exactly the input list, so there are as many as there
are tokens; for the tokens "echo" and "a;b" the request carries these two
values. -/
theorem ExecInPod_command_params (kc : KubeClient) (rt : Runtime) (pod : Pod)
    (container : String) (commands : List String)
    (hname : pod.Name ≠ "") (hvalid : IsValidPathSegmentName pod.Name = [])
    (hns : IsValidPathSegmentName pod.Namespace = []) :
    (ExecInPod kc rt pod container commands).req.paramValues "command" = commands ∧
      ((ExecInPod kc rt pod container commands).req.paramValues "command").length
        = commands.length ∧
      (ExecInPod kc rt pod container ["echo", "a;b"]).req.paramValues "command"
        = ["echo", "a;b"] := by
  have h : ∀ cs : List String,
      (ExecInPod kc rt pod container cs).req.paramValues "command" = cs := by
    intro cs
    rw [ExecInPod_req, request_accepted pod container cs hname hvalid hns]
    simp only [Request.paramValues]
    rw [List.filter_append, List.map_append, filter_command_map]
    simp
  exact ⟨h commands, by rw [h commands], h _⟩

theorem ExecInPod_command_params_witness :
    (ExecInPod (sampleClient (.ok samplePods)) (sampleRuntime none) sampleRunningPod "app"
        ["echo", "a;b"]).req.paramValues "command" = ["echo", "a;b"] ∧
      ((ExecInPod (sampleClient (.ok samplePods)) (sampleRuntime none) sampleRunningPod "app"
        ["echo", "a;b"]).req.paramValues "command").length = 2 :=
  have h := ExecInPod_command_params (sampleClient (.ok samplePods)) (sampleRuntime none)
    sampleRunningPod "app" ["echo", "a;b"] (by decide) (by decide) (by decide)
  ⟨h.1, h.2.1⟩

/-- The rest of `main` from the `ExecInPod` call on, written out: what `main`
is once it has a client and a pod. -/
theorem main_at_exec (w : World) (client : KubeClient) (pod : Pod)
    (h1 : w.flagSetErr = none) (h2 : w.setenvErr w.kubeconfig = none)
    (h3 : w.filter ≠ "") (h4 : w.container ≠ "")
    (h5 : KubeClientFromConfig (w.loader w.kubeconfig) = .ok client)
    (h6 : GetPodByFilter client w.filter = (some pod, none)) :
    (main w).calls = [Call.KubeClientFromConfig, Call.GetPodByFilter w.filter,
        Call.ExecInPod pod w.container w.args] ∧
      (main w).exec = some (ExecInPod client w.rt pod w.container w.args) ∧
      (main w).log =
        glogV w.verbosity 4 (executingMsg w.args w.container w.filter) ++
          glogV w.verbosity 4 ("Using pod " ++ pod.Name) ++
          (match (ExecInPod client w.rt pod w.container w.args).err with
            | some (GoError.ExitError _ msg) => [{ fn := GlogFn.Error, msg := msg }]
            | some (GoError.other msg) => [{ fn := GlogFn.Fatal, msg := msg }]
            | none => []) ∧
      (main w).outcome =
        (match (ExecInPod client w.rt pod w.container w.args).err with
          | some (GoError.ExitError status _) => Outcome.osExit status
          | some (GoError.other _) => Outcome.glogFatal
          | none => Outcome.returned) := by
  cases herr : (ExecInPod client w.rt pod w.container w.args).err with
  | none => simp [main, h1, h2, h3, h4, h5, h6, herr]
  | some e =>
    cases e with
    | ExitError status msg => simp [main, h1, h2, h3, h4, h5, h6, herr]
    | other msg => simp [main, h1, h2, h3, h4, h5, h6, herr]

theorem glogV_fn (verbosity level : Nat) (msg : String) :
    ∀ e ∈ glogV verbosity level msg, e.fn = GlogFn.Infof := by
  intro e he
  unfold glogV at he
  split at he
  · simp at he; rw [he]
  · cases he

/-- C8: when the resolved filter or the resolved container is the empty
string, main makes none of the calls KubeClientFromConfig, GetPodByFilter,
ExecInPod, builds no exec request, and ends through glog.Fatal or glog.Exit;
when flag.Set and os.Setenv succeeded it ends through glog.Exit with the one
entry naming the missing setting, the filter first. -/
theorem main_missing_setting (w : World) (h : w.filter = "" ∨ w.container = "") :
    (main w).calls = [] ∧ (∀ c ∈ (main w).calls, c.isCluster = false) ∧
      (main w).exec = none ∧
      ((main w).outcome = Outcome.glogFatal ∨ (main w).outcome = Outcome.glogExit) ∧
      (w.flagSetErr = none → w.setenvErr w.kubeconfig = none →
        (main w).outcome = Outcome.glogExit ∧
        (main w).log =
          [LogEntry.mk GlogFn.Exit
            (if w.filter = "" then "no pod-\"filter\" set" else "no \"container\" set")]) := by
  have hcalls : (main w).calls = [] := by
    cases h1 : w.flagSetErr <;> cases h2 : w.setenvErr w.kubeconfig <;>
      rcases h with h | h <;> by_cases hf : w.filter = "" <;> simp [main, h1, h2, h, hf]
  refine ⟨hcalls, by simp [hcalls], ?_, ?_, ?_⟩
  · cases h1 : w.flagSetErr <;> cases h2 : w.setenvErr w.kubeconfig <;>
      rcases h with h | h <;> by_cases hf : w.filter = "" <;> simp [main, h1, h2, h, hf]
  · cases h1 : w.flagSetErr <;> cases h2 : w.setenvErr w.kubeconfig <;>
      rcases h with h | h <;> by_cases hf : w.filter = "" <;> simp [main, h1, h2, h, hf]
  · intro h1 h2
    rcases h with h | h <;> by_cases hf : w.filter = "" <;> simp [main, h1, h2, h, hf]

theorem main_missing_setting_witness :
    ((sampleWorld "" "app" ["true"] (.ok samplePods) none).filter = "" ∨
        (sampleWorld "" "app" ["true"] (.ok samplePods) none).container = "") ∧
      (main (sampleWorld "" "app" ["true"] (.ok samplePods) none)).calls = [] ∧
      (main (sampleWorld "" "app" ["true"] (.ok samplePods) none)).exec = none ∧
      (main (sampleWorld "" "app" ["true"] (.ok samplePods) none)).outcome = Outcome.glogExit ∧
      (main (sampleWorld "" "app" ["true"] (.ok samplePods) none)).log =
        [{ fn := GlogFn.Exit, msg := "no pod-\"filter\" set" }] :=
  have h := main_missing_setting (sampleWorld "" "app" ["true"] (.ok samplePods) none)
    (Or.inl rfl)
  ⟨Or.inl rfl, h.1, h.2.2.1, (h.2.2.2.2 rfl rfl).1, (h.2.2.2.2 rfl rfl).2⟩

/-- C4: when the list call fails with error e, GetPodByFilter returns a nil
pod and e; and a run of main that gets to this list call makes no ExecInPod
call, builds no exec request, and ends through glog.Fatal with e as its last
log entry. -/
theorem list_error_aborts (kc : KubeClient) (filter : String) (e : GoError)
    (hlist : kc.clientset.listPods kc.namespace_ filter = .error e) :
    GetPodByFilter kc filter = (none, some e) ∧
      ∀ w : World, w.flagSetErr = none → w.setenvErr w.kubeconfig = none →
        w.filter = filter → w.filter ≠ "" → w.container ≠ "" →
        KubeClientFromConfig (w.loader w.kubeconfig) = .ok kc →
        (main w).calls = [Call.KubeClientFromConfig, Call.GetPodByFilter filter] ∧
        (∀ c ∈ (main w).calls, c.isExec = false) ∧
        (main w).exec = none ∧
        (main w).outcome = Outcome.glogFatal ∧
        (main w).log = glogV w.verbosity 4 (executingMsg w.args w.container w.filter) ++
          [{ fn := GlogFn.Fatal, msg := e.Error }] := by
  have hget : GetPodByFilter kc filter = (none, some e) := by simp [GetPodByFilter, hlist]
  refine ⟨hget, ?_⟩
  intro w h1 h2 hf h3 h4 h5
  subst hf
  have hcalls : (main w).calls = [Call.KubeClientFromConfig, Call.GetPodByFilter w.filter] := by
    simp [main, h1, h2, h3, h4, h5, hget]
  refine ⟨hcalls, ?_, ?_, ?_, ?_⟩
  · rw [hcalls]; simp [Call.isExec]
  · simp [main, h1, h2, h3, h4, h5, hget]
  · simp [main, h1, h2, h3, h4, h5, hget]
  · simp [main, h1, h2, h3, h4, h5, hget]

theorem list_error_aborts_witness :
    GetPodByFilter (sampleClient (.error (GoError.other "Unauthorized"))) "app=web"
        = (none, some (GoError.other "Unauthorized")) ∧
      (main (sampleWorld "app=web" "app" ["true"] (.error (GoError.other "Unauthorized")) none)
        ).calls = [Call.KubeClientFromConfig, Call.GetPodByFilter "app=web"] ∧
      (main (sampleWorld "app=web" "app" ["true"] (.error (GoError.other "Unauthorized")) none)
        ).exec = none ∧
      (main (sampleWorld "app=web" "app" ["true"] (.error (GoError.other "Unauthorized")) none)
        ).outcome = Outcome.glogFatal ∧
      (main (sampleWorld "app=web" "app" ["true"] (.error (GoError.other "Unauthorized")) none)
        ).log = [{ fn := GlogFn.Fatal, msg := "Unauthorized" }] :=
  have h := list_error_aborts (sampleClient (.error (GoError.other "Unauthorized"))) "app=web"
    (GoError.other "Unauthorized") rfl
  have hw := h.2 (sampleWorld "app=web" "app" ["true"] (.error (GoError.other "Unauthorized")) none)
    rfl rfl rfl (by decide) (by decide) rfl
  ⟨h.1, hw.1, hw.2.2.1, hw.2.2.2.1, hw.2.2.2.2⟩

/-- C7: when the ExecInPod call of main returns an exit error with status s,
main ends through os.Exit with exactly s, and no entry of its log comes from
glog.Fatal or glog.Exit. -/
theorem main_remote_exit_status (w : World) (client : KubeClient) (pod : Pod) (s : Int)
    (msg : String)
    (h1 : w.flagSetErr = none) (h2 : w.setenvErr w.kubeconfig = none)
    (h3 : w.filter ≠ "") (h4 : w.container ≠ "")
    (h5 : KubeClientFromConfig (w.loader w.kubeconfig) = .ok client)
    (h6 : GetPodByFilter client w.filter = (some pod, none))
    (herr : (ExecInPod client w.rt pod w.container w.args).err = some (GoError.ExitError s msg)) :
    (main w).outcome = Outcome.osExit s ∧
      ∀ e ∈ (main w).log, e.fn ≠ GlogFn.Fatal ∧ e.fn ≠ GlogFn.Exit := by
  obtain ⟨_, _, hlog, hout⟩ := main_at_exec w client pod h1 h2 h3 h4 h5 h6
  rw [herr] at hlog hout
  refine ⟨hout, ?_⟩
  intro e he
  rw [hlog] at he
  simp only [List.mem_append, List.mem_singleton] at he
  rcases he with (he | he) | he
  · rw [glogV_fn _ _ _ e he]; decide
  · rw [glogV_fn _ _ _ e he]; decide
  · subst he
    exact ⟨by simp, by simp⟩

theorem main_remote_exit_status_witness :
    (ExecInPod (sampleClient (.ok samplePods)) (sampleRuntime (some sampleExit7)) sampleRunningPod
        "app" ["sh", "-c", "exit 7"]).err = some (GoError.ExitError 7 sampleExit7.Error) ∧
      (main (sampleWorld "app=web" "app" ["sh", "-c", "exit 7"] (.ok samplePods)
        (some sampleExit7))).outcome = Outcome.osExit 7 ∧
      ∀ e ∈ (main (sampleWorld "app=web" "app" ["sh", "-c", "exit 7"] (.ok samplePods)
        (some sampleExit7))).log, e.fn ≠ GlogFn.Fatal ∧ e.fn ≠ GlogFn.Exit :=
  ⟨rfl, main_remote_exit_status
    (sampleWorld "app=web" "app" ["sh", "-c", "exit 7"] (.ok samplePods) (some sampleExit7))
    (sampleClient (.ok samplePods)) sampleRunningPod 7 sampleExit7.Error
    rfl rfl (by decide) (by decide) rfl rfl rfl⟩

/-- C10, as stated, fails: with the remote command ending with status 7 and
verbosity 0, main exits with 7 and its log is not silent, it holds an entry
written by glog.Error. -/
theorem main_remote_exit_not_silent :
    (main (sampleWorld "app=web" "app" ["sh", "-c", "exit 7"] (.ok samplePods)
        (some sampleExit7))).outcome = Outcome.osExit 7 ∧
      (main (sampleWorld "app=web" "app" ["sh", "-c", "exit 7"] (.ok samplePods)
        (some sampleExit7))).log = [{ fn := GlogFn.Error, msg := sampleExit7.Error }] ∧
      ¬ (∀ e ∈ (main (sampleWorld "app=web" "app" ["sh", "-c", "exit 7"] (.ok samplePods)
        (some sampleExit7))).log, e.fn ≠ GlogFn.Error) := by
  have hlog : (main (sampleWorld "app=web" "app" ["sh", "-c", "exit 7"] (.ok samplePods)
      (some sampleExit7))).log = [{ fn := GlogFn.Error, msg := sampleExit7.Error }] := rfl
  refine ⟨rfl, hlog, ?_⟩
  rw [hlog]
  intro h
  exact h _ (List.mem_singleton_self _) rfl

/-- C10, amended: when the ExecInPod call of main returns an exit error with
status s and text msg, main writes that text once through glog.Error, as the
last entry of its log and after nothing but the verbose Infof entries, writes
no glog.Fatal or glog.Exit entry, and then ends through os.Exit with s. -/
theorem main_remote_exit_logged_once (w : World) (client : KubeClient) (pod : Pod) (s : Int)
    (msg : String)
    (h1 : w.flagSetErr = none) (h2 : w.setenvErr w.kubeconfig = none)
    (h3 : w.filter ≠ "") (h4 : w.container ≠ "")
    (h5 : KubeClientFromConfig (w.loader w.kubeconfig) = .ok client)
    (h6 : GetPodByFilter client w.filter = (some pod, none))
    (herr : (ExecInPod client w.rt pod w.container w.args).err = some (GoError.ExitError s msg)) :
    (main w).log =
        glogV w.verbosity 4 (executingMsg w.args w.container w.filter) ++
          glogV w.verbosity 4 ("Using pod " ++ pod.Name) ++ [{ fn := GlogFn.Error, msg := msg }] ∧
      ((main w).log.filter (fun e => e.fn ≠ GlogFn.Infof)) = [{ fn := GlogFn.Error, msg := msg }] ∧
      (main w).outcome = Outcome.osExit s := by
  obtain ⟨_, _, hlog, hout⟩ := main_at_exec w client pod h1 h2 h3 h4 h5 h6
  rw [herr] at hlog hout
  refine ⟨hlog, ?_, hout⟩
  rw [hlog]
  have hv : ∀ m : String, (glogV w.verbosity 4 m).filter (fun e => e.fn ≠ GlogFn.Infof) = [] := by
    intro m
    unfold glogV
    split <;> simp
  rw [List.filter_append, List.filter_append, hv, hv]
  simp

theorem main_remote_exit_logged_once_witness :
    (main (sampleWorld "app=web" "app" ["false"] (.ok samplePods)
        (some (GoError.ExitError 1 "command terminated with exit code 1")))).log =
        [{ fn := GlogFn.Error, msg := "command terminated with exit code 1" }] ∧
      (main (sampleWorld "app=web" "app" ["false"] (.ok samplePods)
        (some (GoError.ExitError 1 "command terminated with exit code 1")))).outcome
        = Outcome.osExit 1 :=
  have h := main_remote_exit_logged_once
    (sampleWorld "app=web" "app" ["false"] (.ok samplePods)
      (some (GoError.ExitError 1 "command terminated with exit code 1")))
    (sampleClient (.ok samplePods)) sampleRunningPod 1 "command terminated with exit code 1"
    rfl rfl (by decide) (by decide) rfl rfl rfl
  ⟨h.1, h.2.2⟩

/-- C6, as stated, fails: with filter and container set, a Running pod in the
list and no positional argument, main rejects nothing: it calls ExecInPod with
the empty command list, and the request built carries no command value and is
streamed. -/
theorem main_empty_command_not_rejected :
    (sampleWorld "app=web" "app" [] (.ok samplePods) none).args = [] ∧
      (main (sampleWorld "app=web" "app" [] (.ok samplePods) none)).calls =
        [Call.KubeClientFromConfig, Call.GetPodByFilter "app=web",
          Call.ExecInPod sampleRunningPod "app" []] ∧
      (main (sampleWorld "app=web" "app" [] (.ok samplePods) none)).exec.map
        (fun t => t.req.paramValues "command") = some [] ∧
      (main (sampleWorld "app=web" "app" [] (.ok samplePods) none)).exec.map
        (fun t => t.stream.isSome) = some true ∧
      (main (sampleWorld "app=web" "app" [] (.ok samplePods) none)).outcome = Outcome.returned := by
  refine ⟨rfl, rfl, rfl, rfl, rfl⟩

/-- C6, amended: with no positional argument the invocation is not rejected.
Once the filter and container checks pass, the client is configured and
GetPodByFilter returns a pod, main calls ExecInPod with the empty command
list; the request ExecInPod builds carries no command value, and it is
streamed when the executor is built and both flushes succeed. -/
theorem main_empty_args_reach_exec (w : World) (client : KubeClient) (pod : Pod)
    (h1 : w.flagSetErr = none) (h2 : w.setenvErr w.kubeconfig = none)
    (h3 : w.filter ≠ "") (h4 : w.container ≠ "")
    (h5 : KubeClientFromConfig (w.loader w.kubeconfig) = .ok client)
    (h6 : GetPodByFilter client w.filter = (some pod, none))
    (hargs : w.args = []) :
    (main w).calls = [Call.KubeClientFromConfig, Call.GetPodByFilter w.filter,
        Call.ExecInPod pod w.container []] ∧
      (main w).exec.map (fun t => t.req.paramValues "command") = some [] ∧
      (main w).exec.map (fun t => t.stream) =
        some (if w.rt.NewExecutor client.restconfig "POST"
              (ExecInPod.request pod w.container []) = none
            ∧ w.rt.StdoutSync = none ∧ w.rt.StderrSync = none
          then some (ExecInPod.streamOptions w.rt) else none) := by
  obtain ⟨hcalls, hexec, _, _⟩ := main_at_exec w client pod h1 h2 h3 h4 h5 h6
  rw [hargs] at hcalls hexec
  refine ⟨hcalls, ?_, ?_⟩
  · rw [hexec, Option.map_some', ExecInPod_req, request_no_commands]
  · rw [hexec, Option.map_some', ExecInPod_stream]

theorem main_empty_args_reach_exec_witness :
    (main (sampleWorld "app=web" "app" [] (.ok (sampleIdlePods ++ samplePods)) none)).calls =
        [Call.KubeClientFromConfig, Call.GetPodByFilter "app=web",
          Call.ExecInPod sampleRunningPod "app" []] ∧
      (main (sampleWorld "app=web" "app" [] (.ok (sampleIdlePods ++ samplePods)) none)).exec.map
        (fun t => t.req.paramValues "command") = some [] :=
  have h := main_empty_args_reach_exec
    (sampleWorld "app=web" "app" [] (.ok (sampleIdlePods ++ samplePods)) none)
    (sampleClient (.ok (sampleIdlePods ++ samplePods))) sampleRunningPod
    rfl rfl (by decide) (by decide) rfl rfl rfl
  ⟨h.1, h.2.1⟩

/-- C3 fails on the code: when the list call returns no pod at all, main does
not end with the fatal not-found entry; GetPodByFilter hands it a pointer to
the zero-valued pod, the nil check does not fire, and main calls ExecInPod
for that pod, building a request with empty namespace and pod name and
opening the stream. -/
theorem main_no_running_pod_still_execs :
    ∀ streamErr : Option GoError,
      GetPodByFilter (sampleClient (.ok [])) "app=web" = (some Pod.zero, none) ∧
      (main (sampleWorld "app=web" "app" ["true"] (.ok []) streamErr)).calls =
        [Call.KubeClientFromConfig, Call.GetPodByFilter "app=web",
          Call.ExecInPod Pod.zero "app" ["true"]] ∧
      (main (sampleWorld "app=web" "app" ["true"] (.ok []) streamErr)).exec.map
        (fun t => (t.req.namespace_, t.req.resourceName, t.stream.isSome)) =
        some ("", "", true) ∧
      (main (sampleWorld "app=web" "app" ["true"] (.ok []) streamErr)).log =
        (match streamErr with
          | some (GoError.ExitError _ msg) => [{ fn := GlogFn.Error, msg := msg }]
          | some (GoError.other msg) => [{ fn := GlogFn.Fatal, msg := msg }]
          | none => []) := by
  intro streamErr
  have hf : (sampleWorld "app=web" "app" ["true"] (.ok []) streamErr).filter ≠ "" := by
    show ("app=web" : String) ≠ ""
    decide
  have hc : (sampleWorld "app=web" "app" ["true"] (.ok []) streamErr).container ≠ "" := by
    show ("app" : String) ≠ ""
    decide
  have h := main_at_exec (sampleWorld "app=web" "app" ["true"] (.ok []) streamErr)
    (sampleClient (.ok [])) Pod.zero rfl rfl hf hc rfl rfl
  refine ⟨rfl, h.1, ?_, ?_⟩
  · rw [h.2.1]
    rfl
  · rw [h.2.2.1]
    rfl

end KubeContainerExec
